import Mathlib

/-!
Verification of the membership domain logic of the Event_management_System
repository (a membership-management web application).

The embedded source functions:
* `calculateNewEndDate` and `handleUpdate` from
  `src/pages/maintenance/UpdateMembership.tsx`;
* `calculateEndDate` and `generateMembershipNumber` from the AddMembership
  page, together with the membership insert (`handleSubmit`);
* `generate_membership_number` and `handle_new_user` from the SQL
  migrations (`supabase/migrations/*.sql`).

Dates are embedded as explicit year/month/day triples; the date-fns
`addMonths`/`addYears` functions used by the TypeScript code perform
calendar-aware month arithmetic that clamps the day-of-month to the last
valid day of the target month, which is what `addMonths` below implements
(date-fns `addYears d n` is `addMonths d (12*n)`).  ISO `yyyy-MM-dd`
strings round-trip through `parseISO`/`format`, so the embedding works
directly on the triples.  Timestamp bookkeeping columns (`created_at`,
`updated_at`) are not modelled; no claim mentions them.
-/

namespace EventManagement

/-- A calendar date as stored in the `DATE` columns and the `yyyy-MM-dd`
strings exchanged with date-fns (`parseISO` / `format`). -/
structure Date where
  year : Nat
  month : Nat
  day : Nat
deriving DecidableEq

/-- Gregorian leap-year rule (as implemented by the JavaScript `Date`
object underlying date-fns). -/
def isLeapYear (y : Nat) : Bool :=
  (y % 4 == 0 && y % 100 != 0) || y % 400 == 0

/-- Number of days in a month (date-fns `getDaysInMonth` semantics, used
by `addMonths` to clamp the day of month). -/
def daysInMonth (y m : Nat) : Nat :=
  if m = 2 then (if isLeapYear y then 29 else 28)
  else if m = 4 ∨ m = 6 ∨ m = 9 ∨ m = 11 then 30
  else 31

/-- Absolute month counter of a date, used to compare results of month
arithmetic. -/
def monthIndex (d : Date) : Nat := d.year * 12 + (d.month - 1)

/-- date-fns `addMonths`: move forward `amount` calendar months and clamp
the day to the last valid day of the target month (so Jan 31 + 1 month is
the last day of February, never an invalid date). -/
def addMonths (d : Date) (amount : Nat) : Date :=
  let t := d.year * 12 + (d.month - 1) + amount
  let y := t / 12
  let m := t % 12 + 1
  { year := y, month := m, day := min d.day (daysInMonth y m) }

/-- date-fns `addYears`, implemented there as `addMonths` with `12 * n`
months. -/
def addYears (d : Date) (amount : Nat) : Date := addMonths d (12 * amount)

/-- Strict calendar order on dates (lexicographic on year, month, day). -/
def dateLt (a b : Date) : Prop :=
  a.year < b.year ∨
    (a.year = b.year ∧
      (a.month < b.month ∨ (a.month = b.month ∧ a.day < b.day)))

instance (a b : Date) : Decidable (dateLt a b) :=
  inferInstanceAs (Decidable (a.year < b.year ∨
    (a.year = b.year ∧
      (a.month < b.month ∨ (a.month = b.month ∧ a.day < b.day)))))

/-- Non-strict calendar order on dates. -/
def dateLe (a b : Date) : Prop := dateLt a b ∨ a = b

instance (a b : Date) : Decidable (dateLe a b) :=
  inferInstanceAs (Decidable (dateLt a b ∨ a = b))

/-- A date is valid when its month is in 1..12 and its day exists in that
month. -/
def isValidDate (d : Date) : Prop :=
  1 ≤ d.month ∧ d.month ≤ 12 ∧ 1 ≤ d.day ∧ d.day ≤ daysInMonth d.year d.month

instance (d : Date) : Decidable (isValidDate d) :=
  inferInstanceAs (Decidable (1 ≤ d.month ∧ d.month ≤ 12 ∧ 1 ≤ d.day ∧
    d.day ≤ daysInMonth d.year d.month))

/-- The `membership_status` SQL enum / the status strings written by the
TypeScript pages. -/
inductive MembershipStatus where
  | active
  | cancelled
  | expired
deriving DecidableEq

/-- The `ExtensionType` union of UpdateMembership.tsx:
`'6_months' | '1_year' | '2_years' | 'cancel'`. -/
inductive ExtensionType where
  | six_months
  | one_year
  | two_years
  | cancel
deriving DecidableEq

/-- The `MembershipDuration` union of the AddMembership page (and the
`membership_duration` SQL enum): `'6_months' | '1_year' | '2_years'`. -/
inductive MembershipDuration where
  | six_months
  | one_year
  | two_years
deriving DecidableEq

/-- The `app_role` SQL enum. -/
inductive AppRole where
  | admin
  | user
deriving DecidableEq

/-- `calculateNewEndDate` from UpdateMembership.tsx (lines 76-88):
switch on the extension tag; `'6_months'` adds 6 months, `'1_year'` adds
1 year, `'2_years'` adds 2 years, and the `default` branch returns the
current end date unchanged.  The TypeScript function never throws, so the
embedding is a total function. -/
def calculateNewEndDate (currentEndDate : Date) (extension : ExtensionType) : Date :=
  match extension with
  | .six_months => addMonths currentEndDate 6
  | .one_year => addYears currentEndDate 1
  | .two_years => addYears currentEndDate 2
  | _ => currentEndDate

/-- `calculateEndDate` from the AddMembership page (lines 153-163): the
start date is `new Date()` (today), passed here explicitly. -/
def calculateEndDate (today : Date) (duration : MembershipDuration) : Date :=
  match duration with
  | .six_months => addMonths today 6
  | .one_year => addYears today 1
  | .two_years => addYears today 2

/-- The string tag stored in the `duration` column for each
`MembershipDuration` value. -/
def durationTag : MembershipDuration → String
  | .six_months => "6_months"
  | .one_year => "1_year"
  | .two_years => "2_years"

/-- The `MembershipData` record of UpdateMembership.tsx / the
`memberships` table row (timestamps omitted, see the file header). -/
structure Membership where
  id : String
  membership_number : String
  member_name : String
  email : String
  phone : String
  address : String
  duration : String
  status : MembershipStatus
  start_date : Date
  end_date : Date
deriving DecidableEq

/-- `handleUpdate` from UpdateMembership.tsx (lines 90-134): if the chosen
action is `'cancel'` the row's status is set to `'cancelled'`; otherwise
the row's `end_date` is set to `calculateNewEndDate(end_date, action)` and
its status is set to `'active'`.  No branch inspects the current status. -/
def handleUpdate (m : Membership) (action : ExtensionType) : Membership :=
  if action = ExtensionType.cancel then
    { m with status := MembershipStatus.cancelled }
  else
    { m with
        end_date := calculateNewEndDate m.end_date action,
        status := MembershipStatus.active }

/-- The membership insert of the AddMembership page (`handleSubmit`, with
the table defaults of the first migration): status defaults to `'active'`,
`start_date` defaults to `CURRENT_DATE` (today), and `end_date` is
`calculateEndDate(duration)` computed from the same today. -/
def createMembership (today : Date) (id membershipNumber memberName email phone address : String)
    (dur : MembershipDuration) : Membership :=
  { id := id
    membership_number := membershipNumber
    member_name := memberName
    email := email
    phone := phone
    address := address
    duration := durationTag dur
    status := MembershipStatus.active
    start_date := today
    end_date := calculateEndDate today dur }

/-- Decimal digit characters, as produced by JavaScript `String(n)` and
SQL `::TEXT`. -/
def digitChar : Nat → Char
  | 0 => '0'
  | 1 => '1'
  | 2 => '2'
  | 3 => '3'
  | 4 => '4'
  | 5 => '5'
  | 6 => '6'
  | 7 => '7'
  | 8 => '8'
  | _ => '9'

/-- Most-significant-first decimal digits of `n`; the first argument is
fuel (`n` itself suffices, since the recursion divides by 10). -/
def natDigitsAux : Nat → Nat → List Char
  | 0, _ => []
  | fuel + 1, n =>
    if n = 0 then [] else natDigitsAux fuel (n / 10) ++ [digitChar (n % 10)]

/-- Decimal rendering of a natural number (JavaScript `String(n)`, SQL
`n::TEXT`). -/
def natDigits (n : Nat) : List Char :=
  if n = 0 then ['0'] else natDigitsAux n n

/-- JavaScript `String.prototype.padStart`: left-pad to length `w`; a
string already at least `w` long is returned unchanged. -/
def padStartList (s : List Char) (w : Nat) (c : Char) : List Char :=
  List.replicate (w - s.length) c ++ s

/-- PostgreSQL `LPAD(s, w, c)`: left-pad to length `w`; a string longer
than `w` is truncated on the right to exactly `w` characters. -/
def lpadList (s : List Char) (w : Nat) (c : Char) : List Char :=
  if w ≤ s.length then s.take w
  else List.replicate (w - s.length) c ++ s

/-- `generateMembershipNumber` from the AddMembership page (lines 165-178):
`` `MEM${String((totalCount || 0) + 1).padStart(6, '0')}` `` where
`totalCount` is the exact row count of the `memberships` table. -/
def generateMembershipNumber (totalCount : Nat) : String :=
  String.mk ('M' :: 'E' :: 'M' :: padStartList (natDigits (totalCount + 1)) 6 '0')

/-- `generate_membership_number` from the SQL migrations:
`counter := COUNT(*) + 1; 'MEM' || LPAD(counter::TEXT, 6, '0')`. -/
def generate_membership_number (count : Nat) : String :=
  String.mk ('M' :: 'E' :: 'M' :: lpadList (natDigits (count + 1)) 6 '0')

/-- Modelled from the spec: `zero-pad(m, 6)` — `m` rendered in decimal and
left-padded with zeros to 6 digits. -/
def zeroPad6 (m : Nat) : List Char :=
  List.replicate (6 - (natDigits m).length) '0' ++ natDigits m

/-- Modelled from the spec: `nextMembershipNumber(n) = "MEM" + zero-pad(n+1, 6)`. -/
def specNextMembershipNumber (n : Nat) : String :=
  String.mk ('M' :: 'E' :: 'M' :: zeroPad6 (n + 1))

/-- The role branch of `handle_new_user` from the first SQL migration
(lines 107-129): the new identity gets `'admin'` when the `user_roles`
table is empty at signup time, `'user'` otherwise. -/
def handle_new_user_role (existingIdentityCount : Nat) : AppRole :=
  if existingIdentityCount = 0 then AppRole.admin else AppRole.user

/-! ### Helper lemmas about the date arithmetic -/

theorem monthIndex_addMonths (d : Date) (k : Nat) :
    monthIndex (addMonths d k) = monthIndex d + k := by
  unfold monthIndex addMonths
  simp only
  omega

theorem addMonths_month_le (d : Date) (k : Nat) : (addMonths d k).month ≤ 12 := by
  unfold addMonths
  simp only
  omega

theorem dateLt_of_monthIndex_lt {a b : Date} (hb : b.month ≤ 12)
    (h : monthIndex a < monthIndex b) : dateLt a b := by
  unfold monthIndex at h
  unfold dateLt
  omega

theorem dateLt_addMonths (d : Date) (k : Nat) (hk : 1 ≤ k) :
    dateLt d (addMonths d k) :=
  dateLt_of_monthIndex_lt (addMonths_month_le d k)
    (by rw [monthIndex_addMonths]; omega)

theorem dateLt_addMonths_addMonths (d : Date) {j k : Nat} (h : j < k) :
    dateLt (addMonths d j) (addMonths d k) :=
  dateLt_of_monthIndex_lt (addMonths_month_le d k)
    (by rw [monthIndex_addMonths, monthIndex_addMonths]; omega)

theorem dateLt_trans {a b c : Date} (h1 : dateLt a b) (h2 : dateLt b c) :
    dateLt a c := by
  unfold dateLt at *
  omega

theorem dateLe_of_le_of_lt {a b c : Date} (h1 : dateLe a b) (h2 : dateLt b c) :
    dateLe a c := by
  unfold dateLe at *
  rcases h1 with h1 | rfl
  · exact Or.inl (dateLt_trans h1 h2)
  · exact Or.inl h2

/-! ### Helper lemmas about decimal rendering and padding -/

theorem natDigitsAux_succ (f n : Nat) :
    natDigitsAux (f + 1) n =
      if n = 0 then [] else natDigitsAux f (n / 10) ++ [digitChar (n % 10)] :=
  rfl

theorem natDigitsAux_length_le :
    ∀ fuel n k, n ≤ fuel → n < 10 ^ k → (natDigitsAux fuel n).length ≤ k := by
  intro fuel
  induction fuel with
  | zero =>
    intro n k _ _
    simp [natDigitsAux]
  | succ f ih =>
    intro n k hf hk
    rw [natDigitsAux_succ]
    by_cases hn : n = 0
    · simp [hn]
    · rw [if_neg hn, List.length_append]
      simp only [List.length_cons, List.length_nil]
      cases k with
      | zero => omega
      | succ j =>
        have hdiv : n / 10 < 10 ^ j := by
          rw [Nat.div_lt_iff_lt_mul (by omega)]
          calc n < 10 ^ (j + 1) := hk
            _ = 10 ^ j * 10 := by rw [Nat.pow_succ]
        have hfuel : n / 10 ≤ f := by
          have hlt : n / 10 < n := Nat.div_lt_self (Nat.pos_of_ne_zero hn) (by omega)
          omega
        have hlen := ih (n / 10) j hfuel hdiv
        omega

theorem natDigitsAux_length_ge :
    ∀ fuel n k, n ≤ fuel → 10 ^ k ≤ n → k + 1 ≤ (natDigitsAux fuel n).length := by
  intro fuel
  induction fuel with
  | zero =>
    intro n k hf hk
    have := Nat.pos_pow_of_pos k (show 0 < 10 by omega)
    omega
  | succ f ih =>
    intro n k hf hk
    have hn : n ≠ 0 := by
      have := Nat.pos_pow_of_pos k (show 0 < 10 by omega)
      omega
    rw [natDigitsAux_succ, if_neg hn, List.length_append]
    simp only [List.length_cons, List.length_nil]
    cases k with
    | zero => omega
    | succ j =>
      have hdiv : 10 ^ j ≤ n / 10 := by
        rw [Nat.le_div_iff_mul_le (by omega)]
        calc 10 ^ j * 10 = 10 ^ (j + 1) := by rw [Nat.pow_succ]
          _ ≤ n := hk
      have hfuel : n / 10 ≤ f := by
        have hlt : n / 10 < n := Nat.div_lt_self (Nat.pos_of_ne_zero hn) (by omega)
        omega
      have hlen := ih (n / 10) j hfuel hdiv
      omega

theorem natDigits_length_le {n k : Nat} (hk : 1 ≤ k) (h : n < 10 ^ k) :
    (natDigits n).length ≤ k := by
  unfold natDigits
  by_cases hn : n = 0
  · simp [hn]; omega
  · simp only [hn, if_false]
    exact natDigitsAux_length_le n n k (Nat.le_refl n) h

theorem natDigits_length_ge {n k : Nat} (h : 10 ^ k ≤ n) :
    k + 1 ≤ (natDigits n).length := by
  unfold natDigits
  have hn : n ≠ 0 := by
    have := Nat.pos_pow_of_pos k (show 0 < 10 by omega)
    omega
  simp only [hn, if_false]
  exact natDigitsAux_length_ge n n k (Nat.le_refl n) h

theorem padStart_eq_lpad {s : List Char} {w : Nat} (c : Char)
    (h : s.length ≤ w) : padStartList s w c = lpadList s w c := by
  unfold padStartList lpadList
  by_cases hw : w ≤ s.length
  · have hlen : s.length = w := Nat.le_antisymm h hw
    rw [if_pos hw, ← hlen, List.take_length]
    simp
  · rw [if_neg hw]

/-- A concrete membership row used to instantiate the claim theorems. -/
def sampleMembership (st : MembershipStatus) (s e : Date) : Membership :=
  { id := "id-1"
    membership_number := "MEM000001"
    member_name := "Alice Example"
    email := "alice@example.com"
    phone := "5551234567"
    address := "1 Main Street"
    duration := "6_months"
    status := st
    start_date := s
    end_date := e }

/-! ### Claim theorems -/

/-- C1 (counterexample): extending a cancelled membership does not fail
and does not leave the record unchanged — `handleUpdate` reactivates it
(status becomes `active`) and moves its end date forward. -/
theorem extend_cancelled_counterexample :
    (handleUpdate (sampleMembership MembershipStatus.cancelled ⟨2023, 7, 1⟩ ⟨2024, 1, 1⟩)
        ExtensionType.six_months).status = MembershipStatus.active ∧
    (handleUpdate (sampleMembership MembershipStatus.cancelled ⟨2023, 7, 1⟩ ⟨2024, 1, 1⟩)
        ExtensionType.six_months).end_date = ⟨2024, 7, 1⟩ ∧
    (⟨2024, 7, 1⟩ : Date) ≠ ⟨2024, 1, 1⟩ := by
  decide

/-- C1 (amended): for every membership whose status is `cancelled`,
invoking the extend operation (any extension tag) succeeds and reactivates
the record: the status is set to `active` and the end date is recomputed
from the stored end date; no `InvalidTransition` failure exists in the
code. -/
theorem extend_cancelled_reactivates (m : Membership) (act : ExtensionType)
    (hs : m.status = MembershipStatus.cancelled)
    (ha : act ≠ ExtensionType.cancel) :
    (handleUpdate m act).status = MembershipStatus.active ∧
    (handleUpdate m act).end_date = calculateNewEndDate m.end_date act ∧
    (handleUpdate m act).start_date = m.start_date := by
  unfold handleUpdate
  rw [if_neg ha]
  exact ⟨rfl, rfl, rfl⟩

/-- C1 (witness): the amended statement at a concrete cancelled record. -/
theorem extend_cancelled_reactivates_witness :
    (handleUpdate (sampleMembership MembershipStatus.cancelled ⟨2023, 7, 1⟩ ⟨2024, 1, 1⟩)
        ExtensionType.one_year).status = MembershipStatus.active ∧
    (handleUpdate (sampleMembership MembershipStatus.cancelled ⟨2023, 7, 1⟩ ⟨2024, 1, 1⟩)
        ExtensionType.one_year).end_date =
      calculateNewEndDate
        (sampleMembership MembershipStatus.cancelled ⟨2023, 7, 1⟩ ⟨2024, 1, 1⟩).end_date
        ExtensionType.one_year ∧
    (handleUpdate (sampleMembership MembershipStatus.cancelled ⟨2023, 7, 1⟩ ⟨2024, 1, 1⟩)
        ExtensionType.one_year).start_date =
      (sampleMembership MembershipStatus.cancelled ⟨2023, 7, 1⟩ ⟨2024, 1, 1⟩).start_date :=
  extend_cancelled_reactivates
    (sampleMembership MembershipStatus.cancelled ⟨2023, 7, 1⟩ ⟨2024, 1, 1⟩)
    ExtensionType.one_year (by decide) (by decide)

/-- C2 (counterexample): extending an expired membership computes the new
end date from the stale stored end date (2020-01-01 becomes 2020-07-01),
not from any plausible current date (here 2025-12-05, the repository's
migration date: extending from it would give 2026-06-05). -/
theorem extend_expired_stale_counterexample :
    (handleUpdate (sampleMembership MembershipStatus.expired ⟨2019, 7, 1⟩ ⟨2020, 1, 1⟩)
        ExtensionType.six_months).end_date = ⟨2020, 7, 1⟩ ∧
    (handleUpdate (sampleMembership MembershipStatus.expired ⟨2019, 7, 1⟩ ⟨2020, 1, 1⟩)
        ExtensionType.six_months).end_date ≠
      calculateEndDate ⟨2025, 12, 5⟩ MembershipDuration.six_months := by
  decide

/-- C2 (amended): for every membership whose status is `expired`, invoking
an extension succeeds and yields status `active`, but the new end date is
computed from the membership's stored (stale) end date, not from today —
renewal compounds from the old date. -/
theorem extend_expired_from_stored_end_date (m : Membership) (act : ExtensionType)
    (hs : m.status = MembershipStatus.expired)
    (ha : act ≠ ExtensionType.cancel) :
    (handleUpdate m act).status = MembershipStatus.active ∧
    (handleUpdate m act).end_date = calculateNewEndDate m.end_date act := by
  unfold handleUpdate
  rw [if_neg ha]
  exact ⟨rfl, rfl⟩

/-- C2 (witness): the amended statement at a concrete expired record. -/
theorem extend_expired_from_stored_end_date_witness :
    (handleUpdate (sampleMembership MembershipStatus.expired ⟨2019, 7, 1⟩ ⟨2020, 1, 1⟩)
        ExtensionType.six_months).status = MembershipStatus.active ∧
    (handleUpdate (sampleMembership MembershipStatus.expired ⟨2019, 7, 1⟩ ⟨2020, 1, 1⟩)
        ExtensionType.six_months).end_date =
      calculateNewEndDate
        (sampleMembership MembershipStatus.expired ⟨2019, 7, 1⟩ ⟨2020, 1, 1⟩).end_date
        ExtensionType.six_months :=
  extend_expired_from_stored_end_date
    (sampleMembership MembershipStatus.expired ⟨2019, 7, 1⟩ ⟨2020, 1, 1⟩)
    ExtensionType.six_months (by decide) (by decide)

/-- C3: for every non-negative count `n`, `generateMembershipNumber n` is
`"MEM"` followed by `n + 1` left-padded with zeros to 6 digits, and in
particular it maps 0 to `"MEM000001"` and 41 to `"MEM000042"`. -/
theorem generateMembershipNumber_spec :
    (∀ n : Nat, generateMembershipNumber n = specNextMembershipNumber n) ∧
    generateMembershipNumber 0 = "MEM000001" ∧
    generateMembershipNumber 41 = "MEM000042" :=
  ⟨fun _ => rfl, by decide, by decide⟩

/-- C4: role assignment is a pure function of the count of already
registered identities — the first identity becomes `admin`, every later
one becomes `user`. -/
theorem handle_new_user_first_admin :
    handle_new_user_role 0 = AppRole.admin ∧
    ∀ k : Nat, 1 ≤ k → handle_new_user_role k = AppRole.user := by
  constructor
  · rfl
  · intro k hk
    unfold handle_new_user_role
    rw [if_neg (by omega)]

/-- C4 (witness): the role assignment at counts 0 and 5. -/
theorem handle_new_user_first_admin_witness :
    handle_new_user_role 0 = AppRole.admin ∧
    handle_new_user_role 5 = AppRole.user :=
  ⟨handle_new_user_first_admin.1, handle_new_user_first_admin.2 5 (by decide)⟩

/-- C5: for every valid date, the end-date calculators are strictly
monotone in the duration — six months before one year before two years —
for both the creation-time calculator and the extension calculator. -/
theorem computeEndDate_strict_monotone (d : Date) (hd : isValidDate d) :
    (dateLt (calculateEndDate d MembershipDuration.six_months)
        (calculateEndDate d MembershipDuration.one_year) ∧
      dateLt (calculateEndDate d MembershipDuration.one_year)
        (calculateEndDate d MembershipDuration.two_years)) ∧
    (dateLt (calculateNewEndDate d ExtensionType.six_months)
        (calculateNewEndDate d ExtensionType.one_year) ∧
      dateLt (calculateNewEndDate d ExtensionType.one_year)
        (calculateNewEndDate d ExtensionType.two_years)) := by
  refine ⟨⟨?_, ?_⟩, ?_, ?_⟩
  · show dateLt (addMonths d 6) (addMonths d (12 * 1))
    exact dateLt_addMonths_addMonths d (by omega)
  · show dateLt (addMonths d (12 * 1)) (addMonths d (12 * 2))
    exact dateLt_addMonths_addMonths d (by omega)
  · show dateLt (addMonths d 6) (addMonths d (12 * 1))
    exact dateLt_addMonths_addMonths d (by omega)
  · show dateLt (addMonths d (12 * 1)) (addMonths d (12 * 2))
    exact dateLt_addMonths_addMonths d (by omega)

/-- C5 (witness): strict monotonicity at the valid date 2024-01-31. -/
theorem computeEndDate_strict_monotone_witness :
    (dateLt (calculateEndDate ⟨2024, 1, 31⟩ MembershipDuration.six_months)
        (calculateEndDate ⟨2024, 1, 31⟩ MembershipDuration.one_year) ∧
      dateLt (calculateEndDate ⟨2024, 1, 31⟩ MembershipDuration.one_year)
        (calculateEndDate ⟨2024, 1, 31⟩ MembershipDuration.two_years)) ∧
    (dateLt (calculateNewEndDate ⟨2024, 1, 31⟩ ExtensionType.six_months)
        (calculateNewEndDate ⟨2024, 1, 31⟩ ExtensionType.one_year) ∧
      dateLt (calculateNewEndDate ⟨2024, 1, 31⟩ ExtensionType.one_year)
        (calculateNewEndDate ⟨2024, 1, 31⟩ ExtensionType.two_years)) :=
  computeEndDate_strict_monotone ⟨2024, 1, 31⟩ (by decide)

/-- C6: the extension calculator uses calendar-aware month arithmetic that
clamps to the last valid day of the target month: 2024-01-31 plus six
months is 2024-07-31, and 2024-08-31 plus six months resolves to
2025-02-28, the last day of February 2025 — a valid date, never Feb-31. -/
theorem computeEndDate_calendar_clamping :
    calculateNewEndDate ⟨2024, 1, 31⟩ ExtensionType.six_months = ⟨2024, 7, 31⟩ ∧
    calculateNewEndDate ⟨2024, 8, 31⟩ ExtensionType.six_months = ⟨2025, 2, 28⟩ ∧
    daysInMonth 2025 2 = 28 ∧
    isValidDate ⟨2025, 2, 28⟩ ∧
    isValidDate ⟨2024, 7, 31⟩ := by
  decide

/-- C7 (counterexample): for the duration tag outside the three extension
durations (the `cancel` tag of `ExtensionType`), `calculateNewEndDate`
does not fail — its `default` branch silently returns the input date. -/
theorem calculateNewEndDate_default_counterexample :
    calculateNewEndDate ⟨2024, 1, 31⟩ ExtensionType.cancel = ⟨2024, 1, 31⟩ := by
  decide

/-- C7 (amended): for every date and the one duration tag outside
{six months, one year, two years} (the `cancel` member of the
`ExtensionType` union), `calculateNewEndDate` silently returns the current
end date unchanged; the function has no `InvalidInput` failure path. -/
theorem calculateNewEndDate_default_returns_input (d : Date) :
    calculateNewEndDate d ExtensionType.cancel = d :=
  rfl

/-- C8: the invariant `endDate >= startDate` holds after every membership
operation — at creation the end date lies strictly after the start date,
and both the extend and the cancel transitions of `handleUpdate` preserve
the invariant. -/
theorem endDate_ge_startDate_invariant :
    (∀ (today : Date) (id num name em ph addr : String) (dur : MembershipDuration),
      dateLe (createMembership today id num name em ph addr dur).start_date
        (createMembership today id num name em ph addr dur).end_date) ∧
    (∀ (m : Membership) (act : ExtensionType),
      dateLe m.start_date m.end_date →
      dateLe (handleUpdate m act).start_date (handleUpdate m act).end_date) := by
  constructor
  · intro today id num name em ph addr dur
    show dateLe today (calculateEndDate today dur)
    have hlt : dateLt today (calculateEndDate today dur) := by
      cases dur with
      | six_months => exact dateLt_addMonths today 6 (by omega)
      | one_year => exact dateLt_addMonths today (12 * 1) (by omega)
      | two_years => exact dateLt_addMonths today (12 * 2) (by omega)
    unfold dateLe
    exact Or.inl hlt
  · intro m act hle
    unfold handleUpdate
    by_cases ha : act = ExtensionType.cancel
    · rw [if_pos ha]
      exact hle
    · rw [if_neg ha]
      have hlt : dateLt m.end_date (calculateNewEndDate m.end_date act) := by
        cases act with
        | six_months => exact dateLt_addMonths m.end_date 6 (by omega)
        | one_year => exact dateLt_addMonths m.end_date (12 * 1) (by omega)
        | two_years => exact dateLt_addMonths m.end_date (12 * 2) (by omega)
        | cancel => exact absurd rfl ha
      exact dateLe_of_le_of_lt hle hlt

/-- C8 (witness): the invariant at a concrete creation and a concrete
extension of a membership satisfying the invariant. -/
theorem endDate_ge_startDate_invariant_witness :
    dateLe (createMembership ⟨2024, 5, 15⟩ "id-1" "MEM000001" "Alice Example"
        "alice@example.com" "5551234567" "1 Main Street"
        MembershipDuration.six_months).start_date
      (createMembership ⟨2024, 5, 15⟩ "id-1" "MEM000001" "Alice Example"
        "alice@example.com" "5551234567" "1 Main Street"
        MembershipDuration.six_months).end_date ∧
    dateLe (handleUpdate (sampleMembership MembershipStatus.active ⟨2024, 1, 1⟩ ⟨2024, 7, 1⟩)
        ExtensionType.one_year).start_date
      (handleUpdate (sampleMembership MembershipStatus.active ⟨2024, 1, 1⟩ ⟨2024, 7, 1⟩)
        ExtensionType.one_year).end_date :=
  ⟨endDate_ge_startDate_invariant.1 ⟨2024, 5, 15⟩ "id-1" "MEM000001" "Alice Example"
      "alice@example.com" "5551234567" "1 Main Street" MembershipDuration.six_months,
    endDate_ge_startDate_invariant.2
      (sampleMembership MembershipStatus.active ⟨2024, 1, 1⟩ ⟨2024, 7, 1⟩)
      ExtensionType.one_year (by decide)⟩

/-- C9: the TypeScript and SQL membership-number generators produce the
identical string for every existing count `n` with `n + 1 ≤ 999999`;
beyond that bound they always diverge, because `padStart` widens the field
while `LPAD` truncates it to 6 characters. -/
theorem generators_agree_below_padding_bound :
    (∀ n : Nat, n + 1 ≤ 999999 →
      generateMembershipNumber n = generate_membership_number n) ∧
    (∀ n : Nat, 999999 < n + 1 →
      generateMembershipNumber n ≠ generate_membership_number n) := by
  have hpow : (10 : Nat) ^ 6 = 1000000 := by norm_num
  constructor
  · intro n hn
    unfold generateMembershipNumber generate_membership_number
    have hlen : (natDigits (n + 1)).length ≤ 6 :=
      @natDigits_length_le (n + 1) 6 (by omega) (by omega)
    rw [padStart_eq_lpad '0' hlen]
  · intro n hn heq
    unfold generateMembershipNumber generate_membership_number at heq
    have hdata : ('M' :: 'E' :: 'M' :: padStartList (natDigits (n + 1)) 6 '0')
        = ('M' :: 'E' :: 'M' :: lpadList (natDigits (n + 1)) 6 '0') :=
      congrArg String.data heq
    have hlen7 : 7 ≤ (natDigits (n + 1)).length := by
      have := @natDigits_length_ge (n + 1) 6 (by omega)
      omega
    have hpadlen : (padStartList (natDigits (n + 1)) 6 '0').length
        = (natDigits (n + 1)).length := by
      unfold padStartList
      rw [List.length_append, List.length_replicate]
      omega
    have hlpadlen : (lpadList (natDigits (n + 1)) 6 '0').length = 6 := by
      unfold lpadList
      rw [if_pos (by omega), List.length_take]
      omega
    have hsame : (padStartList (natDigits (n + 1)) 6 '0').length
        = (lpadList (natDigits (n + 1)) 6 '0').length := by
      have := congrArg List.length hdata
      simp only [List.length_cons] at this
      omega
    omega

/-- C9 (witness): agreement at count 0 and divergence at count 999999. -/
theorem generators_agree_below_padding_bound_witness :
    generateMembershipNumber 0 = generate_membership_number 0 ∧
    generateMembershipNumber 999999 ≠ generate_membership_number 999999 :=
  ⟨generators_agree_below_padding_bound.1 0 (by omega),
    generators_agree_below_padding_bound.2 999999 (by omega)⟩

/-- C10: every extension update writes status `active` unconditionally,
whatever the prior status was. -/
theorem update_extension_always_sets_active (m : Membership)
    (act : ExtensionType) (ha : act ≠ ExtensionType.cancel) :
    (handleUpdate m act).status = MembershipStatus.active := by
  unfold handleUpdate
  rw [if_neg ha]

/-- C10 (witness): an extension on a concrete cancelled membership yields
status `active`. -/
theorem update_extension_always_sets_active_witness :
    (handleUpdate (sampleMembership MembershipStatus.cancelled ⟨2023, 7, 1⟩ ⟨2024, 1, 1⟩)
        ExtensionType.two_years).status = MembershipStatus.active :=
  update_extension_always_sets_active
    (sampleMembership MembershipStatus.cancelled ⟨2023, 7, 1⟩ ⟨2024, 1, 1⟩)
    ExtensionType.two_years (by decide)

end EventManagement
